import Mathlib

/-!
Shallow embedding of the Awesome-Planner application core (src/App.tsx):
the trip aggregate state, the snapshot save/load/delete/rename handlers,
the localStorage read helper, the template-based generate flow, and the
PDF pagination / export pipeline. Definitions follow the source handlers;
theorems settle the specification claims C1-C10.
-/

namespace Planner

/-- Currency tag. Modelled from the spec: the `Currency` type lives in
`./types` (not under src/); the spec describes it as the enum-like string
tag `USD | EUR | PLN | CHF`. -/
inductive Currency where
  | USD
  | EUR
  | PLN
  | CHF
deriving DecidableEq, Repr

/-- Exchange-rate mapping. Modelled from the spec: the `ExchangeRates`
type lives in `./types` (not under src/); the spec describes a mapping
from Currency to a numeric rate, and notes that nothing enforces that
every Currency tag has an entry (rates are user-editable and are read
back from storage unvalidated), so each entry is optional here. -/
structure ExchangeRates where
  usd : Option ℚ
  eur : Option ℚ
  pln : Option ℚ
  chf : Option ℚ
deriving DecidableEq, Repr

/-- Look up the rate recorded for a currency, if any. -/
def ExchangeRates.rateFor (r : ExchangeRates) : Currency → Option ℚ
  | .USD => r.usd
  | .EUR => r.eur
  | .PLN => r.pln
  | .CHF => r.chf

/-- Activity. Modelled from the spec: `./types` is not under src/; the
spec gives `{ id: string, time, title, description, ... }`. -/
structure Activity where
  id : String
  time : String
  title : String
  description : String
deriving DecidableEq, Repr

/-- Day: a day number plus its ordered activities, as used by
`handleGenerate` (`day.day`, `day.activities`). -/
structure Day where
  day : ℤ
  activities : List Activity
deriving DecidableEq, Repr

/-- Itinerary: ordered days; `none` is the null itinerary. -/
abbrev Itinerary := List Day

/-- BudgetItem. Modelled from the spec: `{ id: number, label, amount,
category, ... }`. -/
structure BudgetItem where
  id : ℤ
  label : String
  amount : ℚ
  category : String
deriving DecidableEq, Repr

/-- BudgetItem without its id, as received by `handleAddBudgetItem`. -/
structure BudgetItemInput where
  label : String
  amount : ℚ
  category : String
deriving DecidableEq, Repr

/-- Contact. Modelled from the spec: `{ id: number, name, info, ... }`. -/
structure Contact where
  id : ℤ
  name : String
  info : String
deriving DecidableEq, Repr

/-- Contact without its id, as received by `handleAddContact`. -/
structure ContactInput where
  name : String
  info : String
deriving DecidableEq, Repr

/-- Form metadata captured in a snapshot (`formState` in
`handleSaveTrip`). -/
structure FormState where
  destination : String
  startDate : String
  endDate : String
  interests : String
deriving DecidableEq, Repr

/-- The `data` field of a SavedTrip, exactly the five aggregate pieces
copied by `handleSaveTrip`. -/
structure TripData where
  itinerary : Option Itinerary
  budgetItems : List BudgetItem
  contacts : List Contact
  currency : Currency
  exchangeRates : ExchangeRates
deriving DecidableEq, Repr

/-- SavedTrip as built by `handleSaveTrip`. -/
structure SavedTrip where
  id : ℤ
  name : String
  formState : FormState
  data : TripData
deriving DecidableEq, Repr

/-- The live application state held by the App component's useState
hooks (the fields the specified core reads or writes). -/
structure AppState where
  destination : String
  startDate : String
  endDate : String
  interests : String
  isLoading : Bool
  error : Option String
  isGeneratingPdf : Bool
  itinerary : Option Itinerary
  budgetItems : List BudgetItem
  contacts : List Contact
  currency : Currency
  exchangeRates : ExchangeRates
  savedTrips : List SavedTrip
deriving DecidableEq, Repr

/-- The default exchange rates passed to `loadState` for
`travelExchangeRates` in App.tsx. -/
def defaultRates : ExchangeRates :=
  { usd := some 1, eur := some (92/100), pln := some (405/100), chf := some (91/100) }

/-- The initial live state from the useState initializers in App.tsx,
in the fresh-storage case where every `loadState` call returns its
default value. -/
def initialState : AppState :=
  { destination := "Tokyo, Japan"
    startDate := "2024-10-15"
    endDate := "2024-10-20"
    interests := "Ramen, ancient temples, arcades, and street fashion."
    isLoading := false
    error := none
    isGeneratingPdf := false
    itinerary := none
    budgetItems := []
    contacts := []
    currency := .USD
    exchangeRates := defaultRates
    savedTrips := [] }

/-- The `loadState` helper of App.tsx. The surrounding storage medium is
a partial map from keys to raw strings (`localStorage.getItem` returns
null for a missing key, modelled as `none`); `JSON.parse` either yields
a value or throws, modelled as a `parse` function into `Option T`; the
catch branch returns the default. -/
def loadState {T : Type} (parse : String → Option T)
    (storage : String → Option String) (key : String) (defaultValue : T) : T :=
  match storage key with
  | none => defaultValue
  | some saved =>
    match parse saved with
    | none => defaultValue
    | some v => v

/-- The live aggregate pieces that `handleSaveTrip` copies into a
snapshot's `data` field. -/
def liveDataOf (s : AppState) : TripData :=
  { itinerary := s.itinerary
    budgetItems := s.budgetItems
    contacts := s.contacts
    currency := s.currency
    exchangeRates := s.exchangeRates }

/-- The form metadata that `handleSaveTrip` copies into a snapshot's
`formState` field. -/
def formStateOf (s : AppState) : FormState :=
  { destination := s.destination
    startDate := s.startDate
    endDate := s.endDate
    interests := s.interests }

/-- The alert text shown by `handleSaveTrip` when there is nothing to
save. -/
def noItineraryMsg : String := "There's no itinerary to save."

/-- A prompt result is truthy in the JavaScript sense when the user did
not cancel and the string is non-empty. -/
def truthyName (promptResult : Option String) : Prop :=
  promptResult ≠ none ∧ promptResult ≠ some ""

instance (promptResult : Option String) : Decidable (truthyName promptResult) :=
  inferInstanceAs (Decidable (_ ∧ _))

/-- The `handleSaveTrip` handler. `promptResult` is what the prompt
collaborator returned (`none` = cancelled); `now` is `Date.now()`.
Returns the new state and the list of alert messages shown. -/
def handleSaveTrip (promptResult : Option String) (now : ℤ)
    (s : AppState) : AppState × List String :=
  if s.itinerary = none ∨ s.itinerary = some [] then
    (s, [noItineraryMsg])
  else
    match promptResult with
    | none => (s, [])
    | some tripName =>
      if tripName = "" then (s, [])
      else
        let newTrip : SavedTrip :=
          { id := now
            name := tripName
            formState := formStateOf s
            data := liveDataOf s }
        ({ s with savedTrips := s.savedTrips ++ [newTrip] },
          ["Trip '" ++ tripName ++ "' has been saved."])

/-- The `handleLoadTrip` handler. `confirmed` is the result of the
confirm collaborator; the trip is looked up by id with `find`. -/
def handleLoadTrip (confirmed : Bool) (tripId : ℤ) (s : AppState) : AppState :=
  if confirmed then
    match s.savedTrips.find? (fun t => t.id == tripId) with
    | none => s
    | some tripToLoad =>
      { s with
        itinerary := tripToLoad.data.itinerary
        budgetItems := tripToLoad.data.budgetItems
        contacts := tripToLoad.data.contacts
        currency := tripToLoad.data.currency
        exchangeRates := tripToLoad.data.exchangeRates
        destination := tripToLoad.formState.destination
        startDate := tripToLoad.formState.startDate
        endDate := tripToLoad.formState.endDate
        interests := tripToLoad.formState.interests }
  else s

/-- The `handleDeleteTrip` handler. -/
def handleDeleteTrip (confirmed : Bool) (tripId : ℤ) (s : AppState) : AppState :=
  if confirmed then
    { s with savedTrips := s.savedTrips.filter (fun t => t.id != tripId) }
  else s

/-- The `handleUpdateTripName` handler. -/
def handleUpdateTripName (tripId : ℤ) (newName : String) (s : AppState) : AppState :=
  { s with savedTrips := s.savedTrips.map fun trip =>
      if trip.id == tripId then { trip with name := newName } else trip }

/-- The `handleClearItinerary` handler. -/
def handleClearItinerary (confirmed : Bool) (s : AppState) : AppState :=
  if confirmed then
    { s with itinerary := none, budgetItems := [], contacts := [] }
  else s

/-- The `handleAddBudgetItem` handler; the new id is `Date.now()`. -/
def handleAddBudgetItem (item : BudgetItemInput) (now : ℤ) (s : AppState) : AppState :=
  { s with budgetItems := s.budgetItems ++
      [{ id := now, label := item.label, amount := item.amount, category := item.category }] }

/-- The `handleDeleteBudgetItem` handler. -/
def handleDeleteBudgetItem (id : ℤ) (s : AppState) : AppState :=
  { s with budgetItems := s.budgetItems.filter (fun item => item.id != id) }

/-- The `handleAddContact` handler; the new id is `Date.now()`. -/
def handleAddContact (contact : ContactInput) (now : ℤ) (s : AppState) : AppState :=
  { s with contacts := s.contacts ++ [{ id := now, name := contact.name, info := contact.info }] }

/-- The `handleDeleteContact` handler. -/
def handleDeleteContact (id : ℤ) (s : AppState) : AppState :=
  { s with contacts := s.contacts.filter (fun c => c.id != id) }

/-- The id stamped on an activity by `handleGenerate`:
`activity-{day}-{index}-{time}`. -/
def activityId (dayNumber : ℤ) (index : ℕ) (time : ℤ) : String :=
  "activity-" ++ toString dayNumber ++ "-" ++ toString index ++ "-" ++ toString time

/-- The `planWithIds` mapping of `handleGenerate`: every activity of the
template gets a fresh id derived from its day, index, and the current
time. -/
def stampIds (time : ℤ) (template : Itinerary) : Itinerary :=
  template.map fun day =>
    { day with activities := day.activities.mapIdx fun index activity =>
        { activity with id := activityId day.day index time } }

/-- The synchronous part of `handleGenerate`, before the timed deferral:
validation, then clearing of the live plan and entry into the loading
state. -/
def handleGenerateImmediate (s : AppState) : AppState :=
  if s.destination = "" ∨ s.startDate = "" ∨ s.endDate = "" then
    { s with error := some "Please fill in all required fields." }
  else
    { s with isLoading := true, error := none,
             itinerary := none, budgetItems := [], contacts := [] }

/-- The deferred body of `handleGenerate` (inside `setTimeout`),
parameterized by the template constants (`polishedTemplate.itinerary`,
`defaultBudgetItems`, `defaultContacts` come from
`./components/constants`, not under src/) and by the current time used
for id stamping. -/
def handleGenerateDeferred (template : Itinerary) (defBudget : List BudgetItem)
    (defContacts : List Contact) (time : ℤ) (s : AppState) : AppState :=
  { s with itinerary := some (stampIds time template)
           budgetItems := defBudget
           contacts := defContacts
           isLoading := false }

/-- The operations that act on the live aggregate (and the restore
operation), each with the external inputs it consumes. Snapshot-list
edits (save, delete trip, rename trip) are deliberately excluded: these
are the mutations of the live aggregate plus restore. -/
inductive LiveOp where
  | setDestination (v : String)
  | setStartDate (v : String)
  | setEndDate (v : String)
  | setInterests (v : String)
  | setItinerary (it : Option Itinerary)
  | setCurrency (c : Currency)
  | setExchangeRates (r : ExchangeRates)
  | addBudgetItem (item : BudgetItemInput) (now : ℤ)
  | deleteBudgetItem (id : ℤ)
  | addContact (contact : ContactInput) (now : ℤ)
  | deleteContact (id : ℤ)
  | clearItinerary (confirmed : Bool)
  | generateImmediate
  | generateDeferred (template : Itinerary) (defBudget : List BudgetItem)
      (defContacts : List Contact) (time : ℤ)
  | loadTrip (confirmed : Bool) (tripId : ℤ)
deriving DecidableEq, Repr

/-- Step function dispatching a live-aggregate operation to its
handler. -/
def liveStep (op : LiveOp) (s : AppState) : AppState :=
  match op with
  | .setDestination v => { s with destination := v }
  | .setStartDate v => { s with startDate := v }
  | .setEndDate v => { s with endDate := v }
  | .setInterests v => { s with interests := v }
  | .setItinerary it => { s with itinerary := it }
  | .setCurrency c => { s with currency := c }
  | .setExchangeRates r => { s with exchangeRates := r }
  | .addBudgetItem item now => handleAddBudgetItem item now s
  | .deleteBudgetItem id => handleDeleteBudgetItem id s
  | .addContact contact now => handleAddContact contact now s
  | .deleteContact id => handleDeleteContact id s
  | .clearItinerary confirmed => handleClearItinerary confirmed s
  | .generateImmediate => handleGenerateImmediate s
  | .generateDeferred template defBudget defContacts time =>
      handleGenerateDeferred template defBudget defContacts time s
  | .loadTrip confirmed tripId => handleLoadTrip confirmed tripId s

/-- The claimed rates invariant: the mapping has an entry for the
currently selected currency. -/
def ratesComplete (s : AppState) : Prop :=
  (s.exchangeRates.rateFor s.currency).isSome = true

instance (s : AppState) : Decidable (ratesComplete s) :=
  inferInstanceAs (Decidable (_ = _))

/-- Side condition under which an operation's external inputs respect
the rates invariant: a new currency must have a recorded rate, a new
mapping must cover the selected currency, and a restored snapshot must
cover its own currency. -/
def opRatesOk (op : LiveOp) (s : AppState) : Prop :=
  match op with
  | .setCurrency c => (s.exchangeRates.rateFor c).isSome = true
  | .setExchangeRates r => (r.rateFor s.currency).isSome = true
  | .loadTrip confirmed tripId =>
    confirmed = true →
      ∀ t, s.savedTrips.find? (fun x => x.id == tripId) = some t →
        (t.data.exchangeRates.rateFor t.data.currency).isSome = true
  | _ => True

/-- Page geometry constants of `generatePdf`: A4 height 297, margin 15. -/
def A4_HEIGHT : ℚ := 297

/-- The page margin used by `generatePdf`. -/
def MARGIN : ℚ := 15

/-- The paginator cursor: current page number (jsPDF starts on page 1)
and the vertical cursor `yPos`. -/
structure PdfState where
  page : ℕ
  yPos : ℚ
deriving DecidableEq, Repr

/-- The initial paginator cursor: page 1, `yPos = MARGIN`. -/
def pdfInit : PdfState := { page := 1, yPos := MARGIN }

/-- One placed image: the page it landed on, its top y coordinate, and
its display height. -/
structure Placement where
  page : ℕ
  y : ℚ
  height : ℚ
deriving DecidableEq, Repr

/-- The page-break test of `addCanvasToPdf`:
`yPos + imgHeight > A4_HEIGHT - MARGIN && yPos > MARGIN`. -/
def needsNewPage (st : PdfState) (imgHeight : ℚ) : Prop :=
  A4_HEIGHT - MARGIN < st.yPos + imgHeight ∧ MARGIN < st.yPos

instance (st : PdfState) (imgHeight : ℚ) : Decidable (needsNewPage st imgHeight) :=
  inferInstanceAs (Decidable (_ ∧ _))

/-- Where `addCanvasToPdf` places an image of the given display height
starting from cursor `st`. -/
def placeAt (st : PdfState) (imgHeight : ℚ) : Placement :=
  if needsNewPage st imgHeight then
    { page := st.page + 1, y := MARGIN, height := imgHeight }
  else
    { page := st.page, y := st.yPos, height := imgHeight }

/-- The cursor after `addCanvasToPdf` places an image of the given
display height: a possible page break, then `yPos += imgHeight + 2`. -/
def stepState (st : PdfState) (imgHeight : ℚ) : PdfState :=
  if needsNewPage st imgHeight then
    { page := st.page + 1, yPos := MARGIN + imgHeight + 2 }
  else
    { page := st.page, yPos := st.yPos + imgHeight + 2 }

/-- Run `addCanvasToPdf` over a sequence of block display heights from a
given cursor, collecting one placement per block. -/
def paginateFrom (st : PdfState) : List ℚ → List Placement
  | [] => []
  | h :: rest => placeAt st h :: paginateFrom (stepState st h) rest

/-- The cursor after running `addCanvasToPdf` over a sequence of block
display heights. -/
def stateAfter (st : PdfState) : List ℚ → PdfState
  | [] => st
  | h :: rest => stateAfter (stepState st h) rest

/-- Run a sequence of consecutive `addCanvasToPdf` calls starting on
page 1 with `yPos = MARGIN`. This models only the per-block rule of
`addCanvasToPdf`; the surrounding `generatePdf` walk adds two more
cursor moves — the post-title `yPos += 8` gap and the day-header fit
estimate — modelled below by `afterTitle`, `dayPreBreak` and
`generatePdfLayout`. -/
def paginate (heights : List ℚ) : List Placement :=
  paginateFrom pdfInit heights

/-- The cursor after `generatePdf` handles the title element: one
`addCanvasToPdf` call, then the extra `yPos += 8` gap. -/
def afterTitle (titleHeight : ℚ) : PdfState :=
  { stepState pdfInit titleHeight with
    yPos := (stepState pdfInit titleHeight).yPos + 8 }

/-- The day-header fit estimate of `generatePdf`
(`if (yPos + 20 > A4_HEIGHT - MARGIN) { pdf.addPage(); yPos = MARGIN; }`):
a page break on the fixed estimate 20, regardless of the header's
actual height and with no `yPos > MARGIN` guard. -/
def dayPreBreak (st : PdfState) : PdfState :=
  if A4_HEIGHT - MARGIN < st.yPos + 20 then
    { page := st.page + 1, yPos := MARGIN }
  else st

/-- One day's visual blocks: the `.day-header` element's display height
and the display heights of its `.activity-item` elements, in order. -/
structure DayBlocks where
  header : ℚ
  activities : List ℚ
deriving DecidableEq, Repr

/-- The per-day body of the `generatePdf` loop: the fit-estimate
pre-break, then `addCanvasToPdf` on the header and on each activity. -/
def addDayToPdf (st : PdfState) (d : DayBlocks) : List Placement × PdfState :=
  let st1 := dayPreBreak st
  (placeAt st1 d.header :: paginateFrom (stepState st1 d.header) d.activities,
   stateAfter (stepState st1 d.header) d.activities)

/-- The `generatePdf` loop over the day containers. -/
def layoutDays (st : PdfState) : List DayBlocks → List Placement × PdfState
  | [] => ([], st)
  | d :: rest =>
    let run := addDayToPdf st d
    let runRest := layoutDays run.2 rest
    (run.1 ++ runRest.1, runRest.2)

/-- The full export walk of `generatePdf` over a document with a title
block and day containers: title via `addCanvasToPdf`, the +8 gap, then
every day (pre-break, header, activities). -/
def generatePdfLayout (titleHeight : ℚ) (days : List DayBlocks) : List Placement :=
  placeAt pdfInit titleHeight :: (layoutDays (afterTitle titleHeight) days).1

/-- The UI signals dispatched by `generatePdf`
(`generatePdfStart` / `generatePdfEnd` custom events). -/
inductive PdfSignal where
  | pdfStart
  | pdfEnd
deriving DecidableEq, Repr

/-- The control skeleton of the `generatePdf` export pipeline.
`depsAvailable` models the `window.jspdf` / `window.html2canvas`
presence check, `contentPresent` the `itinerary-content` lookup, and
`bodyThrows` whether the try block (rasterization, assembly, save)
throws. Returns the new state and the ordered list of dispatched UI
signals. Both verification failures return early, before the start
signal and before the try/finally. -/
def generatePdf (depsAvailable contentPresent bodyThrows : Bool)
    (s : AppState) : AppState × List PdfSignal :=
  if depsAvailable = false then
    ({ s with error := some "PDF generation libraries could not be loaded. Please refresh the page and try again." }, [])
  else if contentPresent = false then
    ({ s with error := some "Can't find the itinerary to print. Did you delete it?" }, [])
  else
    let s1 : AppState := { s with isGeneratingPdf := true, error := none }
    let s2 : AppState :=
      if bodyThrows then
        { s1 with error := some "Failed to generate the PDF. An unexpected error occurred." }
      else s1
    ({ s2 with isGeneratingPdf := false }, [.pdfStart, .pdfEnd])

/-- How many times a given signal was dispatched in a run. -/
def signalCount (run : AppState × List PdfSignal) (sig : PdfSignal) : ℕ :=
  run.2.count sig

/-- A rates mapping with no entries, as could arrive from the
user-editable rates editor or from unvalidated storage. -/
def emptyRates : ExchangeRates :=
  { usd := none, eur := none, pln := none, chf := none }

/-- A concrete state with a non-empty one-day itinerary, used to
exercise the handlers at concrete inputs. -/
def sampleState : AppState :=
  { initialState with itinerary := some [{ day := 1, activities := [] }] }

/-- A concrete snapshot whose data holds a non-empty itinerary. -/
def sampleTrip : SavedTrip :=
  { id := 7
    name := "Tokyo"
    formState := formStateOf sampleState
    data := liveDataOf sampleState }

/-- A concrete state whose saved-trips list holds `sampleTrip`. -/
def stateWithTrip : AppState :=
  { initialState with savedTrips := [sampleTrip] }

theorem paginateFrom_length (st : PdfState) (hs : List ℚ) :
    (paginateFrom st hs).length = hs.length := by
  induction hs generalizing st with
  | nil => rfl
  | cons h t ih => simp [paginateFrom, ih]

theorem paginateFrom_append (st : PdfState) (as bs : List ℚ) :
    paginateFrom st (as ++ bs) =
      paginateFrom st as ++ paginateFrom (stateAfter st as) bs := by
  induction as generalizing st with
  | nil => rfl
  | cons h t ih => simp [paginateFrom, stateAfter, ih]

theorem placeAt_page_eq_stepState (st : PdfState) (h : ℚ) :
    (placeAt st h).page = (stepState st h).page := by
  unfold placeAt stepState
  split <;> rfl

theorem placeAt_height (st : PdfState) (h : ℚ) : (placeAt st h).height = h := by
  unfold placeAt
  split <;> rfl

theorem stepState_page_mono (st : PdfState) (h : ℚ) :
    st.page ≤ (stepState st h).page := by
  unfold stepState
  split <;> simp

theorem stateAfter_page_mono (st : PdfState) (hs : List ℚ) :
    st.page ≤ (stateAfter st hs).page := by
  induction hs generalizing st with
  | nil => exact le_refl _
  | cons h t ih =>
    exact le_trans (stepState_page_mono st h) (ih (stepState st h))

theorem paginateFrom_page_ge (st : PdfState) (hs : List ℚ) :
    ∀ pl ∈ paginateFrom st hs, st.page ≤ pl.page := by
  induction hs generalizing st with
  | nil => intro pl hpl; simp [paginateFrom] at hpl
  | cons h t ih =>
    intro pl hpl
    rcases (by simpa [paginateFrom] using hpl :
        pl = placeAt st h ∨ pl ∈ paginateFrom (stepState st h) t) with rfl | hmem
    · rw [placeAt_page_eq_stepState]
      exact stepState_page_mono st h
    · exact le_trans (stepState_page_mono st h) (ih (stepState st h) pl hmem)

theorem stepState_yPos_lb (st : PdfState) (h : ℚ) (h0 : 0 ≤ h)
    (hy : MARGIN ≤ st.yPos) : MARGIN + 2 ≤ (stepState st h).yPos := by
  unfold stepState
  split
  · show MARGIN + 2 ≤ MARGIN + h + 2
    linarith
  · show MARGIN + 2 ≤ st.yPos + h + 2
    linarith

theorem stateAfter_yPos_lb (st : PdfState) (hs : List ℚ)
    (hnn : ∀ x ∈ hs, 0 ≤ x) (hy : MARGIN ≤ st.yPos) :
    MARGIN ≤ (stateAfter st hs).yPos := by
  induction hs generalizing st with
  | nil => exact hy
  | cons h t ih =>
    have h0 : 0 ≤ h := hnn h (by simp)
    have hy' := stepState_yPos_lb st h h0 hy
    show MARGIN ≤ (stateAfter (stepState st h) t).yPos
    exact ih (stepState st h) (fun x hx => hnn x (by simp [hx])) (by linarith)

theorem stateAfter_samePage_yPos (st : PdfState) (hs : List ℚ)
    (hnn : ∀ x ∈ hs, 0 ≤ x)
    (hpage : (stateAfter st hs).page = st.page) :
    st.yPos ≤ (stateAfter st hs).yPos := by
  induction hs generalizing st with
  | nil => exact le_refl _
  | cons h t ih =>
    have h0 : 0 ≤ h := hnn h (by simp)
    have hnt : ∀ x ∈ t, 0 ≤ x := fun x hx => hnn x (by simp [hx])
    have hpage' : (stateAfter (stepState st h) t).page = (stepState st h).page := by
      have h1 : st.page ≤ (stepState st h).page := stepState_page_mono st h
      have h2 : (stepState st h).page ≤ (stateAfter (stepState st h) t).page :=
        stateAfter_page_mono (stepState st h) t
      have h3 : (stateAfter (stepState st h) t).page = st.page := hpage
      omega
    by_cases hc : needsNewPage st h
    · exfalso
      have hstep : (stepState st h).page = st.page + 1 := by
        unfold stepState
        rw [if_pos hc]
      have h3 : (stateAfter (stepState st h) t).page = st.page := hpage
      omega
    · have hstep : stepState st h = { page := st.page, yPos := st.yPos + h + 2 } := by
        unfold stepState
        rw [if_neg hc]
      have htail := ih (stepState st h) hnt hpage'
      show st.yPos ≤ (stateAfter (stepState st h) t).yPos
      have : st.yPos ≤ (stepState st h).yPos := by
        rw [hstep]
        show st.yPos ≤ st.yPos + h + 2
        linarith
      linarith

theorem paginateFrom_page_classify (st : PdfState) (hs : List ℚ)
    (hnn : ∀ x ∈ hs, 0 ≤ x) (hy : MARGIN ≤ st.yPos) :
    ∀ pl ∈ paginateFrom st hs,
      pl.page < (stateAfter st hs).page ∨
      (pl.page = (stateAfter st hs).page ∧ MARGIN + 2 ≤ (stateAfter st hs).yPos) := by
  induction hs generalizing st with
  | nil => intro pl hpl; simp [paginateFrom] at hpl
  | cons h t ih =>
    intro pl hpl
    have h0 : 0 ≤ h := hnn h (by simp)
    have hnt : ∀ x ∈ t, 0 ≤ x := fun x hx => hnn x (by simp [hx])
    have hy' : MARGIN + 2 ≤ (stepState st h).yPos := stepState_yPos_lb st h h0 hy
    rcases (by simpa [paginateFrom] using hpl :
        pl = placeAt st h ∨ pl ∈ paginateFrom (stepState st h) t) with rfl | hmem
    · rw [placeAt_page_eq_stepState]
      rcases LE.le.lt_or_eq (stateAfter_page_mono (stepState st h) t) with hlt | heq
      · left
        exact hlt
      · right
        refine ⟨heq, ?_⟩
        have := stateAfter_samePage_yPos (stepState st h) t hnt heq.symm
        show MARGIN + 2 ≤ (stateAfter (stepState st h) t).yPos
        linarith
    · exact ih (stepState st h) hnt (by linarith) pl hmem

theorem paginateFrom_after_overflow (st : PdfState) (hs : List ℚ)
    (hnn : ∀ x ∈ hs, 0 ≤ x)
    (hbig : A4_HEIGHT - MARGIN < st.yPos) :
    ∀ pl ∈ paginateFrom st hs, st.page < pl.page := by
  cases hs with
  | nil => intro pl hpl; simp [paginateFrom] at hpl
  | cons h t =>
    intro pl hpl
    have h0 : 0 ≤ h := hnn h (by simp)
    have hc : needsNewPage st h := by
      constructor
      · show A4_HEIGHT - MARGIN < st.yPos + h
        linarith
      · show MARGIN < st.yPos
        unfold A4_HEIGHT MARGIN at *
        linarith
    have hstep : (stepState st h).page = st.page + 1 := by
      unfold stepState
      rw [if_pos hc]
    rcases (by simpa [paginateFrom] using hpl :
        pl = placeAt st h ∨ pl ∈ paginateFrom (stepState st h) t) with rfl | hmem
    · rw [placeAt_page_eq_stepState, hstep]
      omega
    · have := paginateFrom_page_ge (stepState st h) t pl hmem
      omega

/-- C8: the persistence load operation returns the stored deserialized
value when the key is present and parseable, and returns the supplied
default (never throwing: it is a total function into `T`) when the key
is missing or deserialization fails. -/
theorem c8_loadState_contract (T : Type) (parse : String → Option T)
    (storage : String → Option String) (key : String) (d : T) :
    (storage key = none → loadState parse storage key d = d) ∧
    (∀ raw v, storage key = some raw → parse raw = some v →
      loadState parse storage key d = v) ∧
    (∀ raw, storage key = some raw → parse raw = none →
      loadState parse storage key d = d) := by
  refine ⟨fun hm => ?_, fun raw v hs hp => ?_, fun raw hs hp => ?_⟩
  · simp [loadState, hm]
  · simp [loadState, hs, hp]
  · simp [loadState, hs, hp]

/-- Witness for C8 at concrete stores: a missing key, a present and
parseable key, and a present but unparseable key. -/
theorem c8_loadState_contract_witness :
    loadState (fun _ => (none : Option ℕ)) (fun _ => none) "k" 0 = 0 ∧
    loadState (fun r => if r = "5" then some 5 else none) (fun _ => some "5") "k" 0 = 5 ∧
    loadState (fun _ => (none : Option ℕ)) (fun _ => some "junk") "k" 0 = 0 :=
  ⟨(c8_loadState_contract ℕ (fun _ => none) (fun _ => none) "k" 0).1 rfl,
   (c8_loadState_contract ℕ (fun r => if r = "5" then some 5 else none)
      (fun _ => some "5") "k" 0).2.1 "5" 5 rfl (by decide),
   (c8_loadState_contract ℕ (fun _ => none) (fun _ => some "junk") "k" 0).2.2 "junk" rfl rfl⟩

/-- C10: with a non-empty itinerary, a cancelled prompt or an empty
trip name makes `handleSaveTrip` a complete no-op: the state (hence the
saved-trips list) is unchanged and no alert is shown. -/
theorem c10_save_cancelled_noop (pr : Option String) (now : ℤ) (s : AppState)
    (hit : ¬(s.itinerary = none ∨ s.itinerary = some []))
    (hpr : pr = none ∨ pr = some "") :
    handleSaveTrip pr now s = (s, []) := by
  rcases hpr with h | h <;> subst h <;> simp [handleSaveTrip, hit]

/-- Witness for C10: cancelling the prompt on a state with a one-day
itinerary changes nothing. -/
theorem c10_save_cancelled_noop_witness :
    ¬(sampleState.itinerary = none ∨ sampleState.itinerary = some []) ∧
    handleSaveTrip none 42 sampleState = (sampleState, []) ∧
    handleSaveTrip (some "") 42 sampleState = (sampleState, []) :=
  ⟨by decide,
   c10_save_cancelled_noop none 42 sampleState (by decide) (Or.inl rfl),
   c10_save_cancelled_noop (some "") 42 sampleState (by decide) (Or.inr rfl)⟩

/-- C5: with a null or empty itinerary, `handleSaveTrip` reports the
"nothing to save" error and performs no mutation; otherwise (with a
supplied non-empty name) it appends exactly one new SavedTrip, whose id
is the creation timestamp, to the end of the saved-trips list, leaving
every other state field unchanged. -/
theorem c5_save_reject_or_append (pr : Option String) (now : ℤ) (s : AppState) :
    ((s.itinerary = none ∨ s.itinerary = some []) →
      handleSaveTrip pr now s = (s, [noItineraryMsg])) ∧
    (¬(s.itinerary = none ∨ s.itinerary = some []) →
      ∀ name, pr = some name → name ≠ "" →
        (handleSaveTrip pr now s).1 =
          { s with savedTrips := s.savedTrips ++
              [{ id := now, name := name,
                 formState := formStateOf s, data := liveDataOf s }] }) := by
  constructor
  · intro hempty
    simp [handleSaveTrip, hempty]
  · intro hit name hname hne
    subst hname
    simp [handleSaveTrip, hit, hne]

/-- Witness for C5: saving on the empty initial state is rejected with
no mutation; saving the one-day sample state appends one snapshot. -/
theorem c5_save_reject_or_append_witness :
    (initialState.itinerary = none ∨ initialState.itinerary = some []) ∧
    handleSaveTrip (some "T") 9 initialState = (initialState, [noItineraryMsg]) ∧
    ¬(sampleState.itinerary = none ∨ sampleState.itinerary = some []) ∧
    (handleSaveTrip (some "T") 9 sampleState).1 =
      { sampleState with savedTrips := sampleState.savedTrips ++
          [{ id := 9, name := "T",
             formState := formStateOf sampleState, data := liveDataOf sampleState }] } :=
  ⟨Or.inl rfl,
   (c5_save_reject_or_append (some "T") 9 initialState).1 (Or.inl rfl),
   by decide,
   (c5_save_reject_or_append (some "T") 9 sampleState).2 (by decide) "T" rfl (by decide)⟩

/-- C9: when all required fields are non-empty, the synchronous part of
`handleGenerate` immediately destroys the previous plan (itinerary set
to null, budget and contacts emptied, loading flag raised) before the
timed deferral runs; the deferred body then installs the id-stamped
template plan, the default budget items, and the default contacts. -/
theorem c9_generate_clears_then_installs (s : AppState) (template : Itinerary)
    (defBudget : List BudgetItem) (defContacts : List Contact) (time : ℤ)
    (hd : s.destination ≠ "") (hs : s.startDate ≠ "") (he : s.endDate ≠ "") :
    (handleGenerateImmediate s).itinerary = none ∧
    (handleGenerateImmediate s).budgetItems = [] ∧
    (handleGenerateImmediate s).contacts = [] ∧
    (handleGenerateImmediate s).isLoading = true ∧
    (handleGenerateDeferred template defBudget defContacts time
        (handleGenerateImmediate s)).itinerary = some (stampIds time template) ∧
    (handleGenerateDeferred template defBudget defContacts time
        (handleGenerateImmediate s)).budgetItems = defBudget ∧
    (handleGenerateDeferred template defBudget defContacts time
        (handleGenerateImmediate s)).contacts = defContacts := by
  have hcond : ¬(s.destination = "" ∨ s.startDate = "" ∨ s.endDate = "") := by
    simp [hd, hs, he]
  simp [handleGenerateImmediate, handleGenerateDeferred, hcond]

/-- Witness for C9 on the initial state with a one-day template. -/
theorem c9_generate_clears_then_installs_witness :
    initialState.destination ≠ "" ∧
    (handleGenerateImmediate initialState).itinerary = none ∧
    (handleGenerateImmediate initialState).budgetItems = [] ∧
    (handleGenerateImmediate initialState).contacts = [] ∧
    (handleGenerateImmediate initialState).isLoading = true ∧
    (handleGenerateDeferred [{ day := 1, activities := [] }] [] [] 5
        (handleGenerateImmediate initialState)).itinerary =
      some (stampIds 5 [{ day := 1, activities := [] }]) ∧
    (handleGenerateDeferred [{ day := 1, activities := [] }] [] [] 5
        (handleGenerateImmediate initialState)).budgetItems = [] ∧
    (handleGenerateDeferred [{ day := 1, activities := [] }] [] [] 5
        (handleGenerateImmediate initialState)).contacts = [] :=
  ⟨by decide,
   c9_generate_clears_then_installs initialState [{ day := 1, activities := [] }] [] [] 5
     (by decide) (by decide) (by decide)⟩

/-- C3 counterexample: when the rasterization dependency is missing,
`generatePdf` returns at the verification step without dispatching
`generatePdfEnd` at all, so the exit signal fires zero times, not
exactly once. -/
theorem c3_missing_deps_no_end_signal :
    signalCount (generatePdf false true false initialState) PdfSignal.pdfEnd = 0 := by
  rfl

/-- C3 as amended: the `generatePdfEnd` signal fires exactly once
whenever both verification checks pass, whether or not the body throws;
when either verification check fails the pipeline returns early and
neither `generatePdfStart` nor `generatePdfEnd` fires, so the two
signals always fire equally often. -/
theorem c3_end_signal_when_verified (depsAvailable contentPresent bodyThrows : Bool)
    (s : AppState) :
    signalCount (generatePdf depsAvailable contentPresent bodyThrows s) PdfSignal.pdfEnd =
      (if depsAvailable && contentPresent then 1 else 0) ∧
    signalCount (generatePdf depsAvailable contentPresent bodyThrows s) PdfSignal.pdfEnd =
      signalCount (generatePdf depsAvailable contentPresent bodyThrows s) PdfSignal.pdfStart := by
  refine ⟨?_, ?_⟩ <;>
    cases depsAvailable <;> cases contentPresent <;> cases bodyThrows <;> rfl

/-- C6 counterexample: from the initial state (which has a rate for the
selected USD), the `setExchangeRates` operation installs an empty
mapping and the claimed invariant fails afterwards. -/
theorem c6_rates_invariant_breakable :
    ratesComplete initialState ∧
    ¬ ratesComplete (liveStep (.setExchangeRates emptyRates) initialState) := by
  constructor
  · decide
  · decide

/-- C6 as amended: the invariant that the rates mapping has an entry
for the selected currency is preserved by every operation whose
external inputs respect it (a newly selected currency has a recorded
rate, a newly installed mapping covers the selected currency, a
restored snapshot covers its own currency); no operation validates
this itself, so the invariant is only as strong as the inputs. -/
theorem c6_rates_invariant_conditional (op : LiveOp) (s : AppState)
    (hinv : ratesComplete s) (hok : opRatesOk op s) :
    ratesComplete (liveStep op s) := by
  cases op with
  | setCurrency c => exact hok
  | setExchangeRates r => exact hok
  | clearItinerary confirmed =>
    show ratesComplete (handleClearItinerary confirmed s)
    cases confirmed <;> exact hinv
  | generateImmediate =>
    show ratesComplete (handleGenerateImmediate s)
    unfold handleGenerateImmediate
    split <;> exact hinv
  | loadTrip confirmed tripId =>
    show ratesComplete (handleLoadTrip confirmed tripId s)
    cases confirmed with
    | false => exact hinv
    | true =>
      rcases hfind : s.savedTrips.find? (fun x => x.id == tripId) with _ | t
      · simpa [handleLoadTrip, hfind] using hinv
      · have hc := hok rfl t hfind
        simpa [handleLoadTrip, hfind, ratesComplete] using hc
  | _ => exact hinv

/-- Witness for the amended C6: selecting EUR on the initial state
(whose mapping records a EUR rate) preserves the invariant. -/
theorem c6_rates_invariant_conditional_witness :
    ratesComplete initialState ∧
    opRatesOk (.setCurrency .EUR) initialState ∧
    ratesComplete (liveStep (.setCurrency .EUR) initialState) :=
  ⟨by decide, by unfold opRatesOk; decide,
   c6_rates_invariant_conditional (.setCurrency .EUR) initialState (by decide)
     (by unfold opRatesOk; decide)⟩

/-- C1: snapshot/live independence. A successful save appends a
snapshot whose data is a copy of the live aggregate at save time; every
live-aggregate operation, restore included, leaves the saved-trips list
(hence every snapshot's data) unchanged; and restoring a found trip
installs that snapshot's data as the live aggregate. -/
theorem c1_snapshot_live_independence :
    (∀ (pr : Option String) (now : ℤ) (s : AppState) (name : String),
        pr = some name → name ≠ "" →
        ¬(s.itinerary = none ∨ s.itinerary = some []) →
        (handleSaveTrip pr now s).1.savedTrips =
          s.savedTrips ++
            [{ id := now, name := name,
               formState := formStateOf s, data := liveDataOf s }]) ∧
    (∀ (op : LiveOp) (s : AppState), (liveStep op s).savedTrips = s.savedTrips) ∧
    (∀ (tripId : ℤ) (s : AppState) (t : SavedTrip),
        s.savedTrips.find? (fun x => x.id == tripId) = some t →
        liveDataOf (handleLoadTrip true tripId s) = t.data) := by
  refine ⟨?_, ?_, ?_⟩
  · intro pr now s name hname hne hit
    subst hname
    simp [handleSaveTrip, hit, hne]
  · intro op s
    cases op with
    | clearItinerary confirmed =>
      show (handleClearItinerary confirmed s).savedTrips = s.savedTrips
      cases confirmed <;> rfl
    | generateImmediate =>
      show (handleGenerateImmediate s).savedTrips = s.savedTrips
      unfold handleGenerateImmediate
      split <;> rfl
    | loadTrip confirmed tripId =>
      show (handleLoadTrip confirmed tripId s).savedTrips = s.savedTrips
      cases confirmed with
      | false => rfl
      | true =>
        rcases hfind : s.savedTrips.find? (fun x => x.id == tripId) with _ | t <;>
          simp [handleLoadTrip, hfind]
    | _ => rfl
  · intro tripId s t hfind
    simp [handleLoadTrip, hfind, liveDataOf]

/-- Witness for C1: saving the sample state appends a copy of its
aggregate; a concrete currency change leaves the stored trip untouched;
restoring the stored trip installs exactly its data. -/
theorem c1_snapshot_live_independence_witness :
    (handleSaveTrip (some "T") 9 sampleState).1.savedTrips =
      sampleState.savedTrips ++
        [{ id := 9, name := "T",
           formState := formStateOf sampleState, data := liveDataOf sampleState }] ∧
    (liveStep (.setCurrency .PLN) stateWithTrip).savedTrips = stateWithTrip.savedTrips ∧
    liveDataOf (handleLoadTrip true 7 stateWithTrip) = sampleTrip.data :=
  ⟨c1_snapshot_live_independence.1 (some "T") 9 sampleState "T" rfl (by decide) (by decide),
   c1_snapshot_live_independence.2.1 (.setCurrency .PLN) stateWithTrip,
   c1_snapshot_live_independence.2.2 7 stateWithTrip sampleTrip rfl⟩

/-- C4: round-trip. For a trip found in the saved-trips list whose
snapshot holds a non-empty itinerary, restoring it and then saving
again (with a supplied non-empty name) appends a new snapshot whose
data equals the restored snapshot's data. -/
theorem c4_restore_save_roundtrip (s : AppState) (tripId : ℤ) (t : SavedTrip)
    (pr : Option String) (now : ℤ) (name : String)
    (hfind : s.savedTrips.find? (fun x => x.id == tripId) = some t)
    (hit : ¬(t.data.itinerary = none ∨ t.data.itinerary = some []))
    (hpr : pr = some name) (hname : name ≠ "") :
    ∃ newTrip : SavedTrip,
      (handleSaveTrip pr now (handleLoadTrip true tripId s)).1.savedTrips =
        (handleLoadTrip true tripId s).savedTrips ++ [newTrip] ∧
      newTrip.data = t.data := by
  subst hpr
  have hlive : liveDataOf (handleLoadTrip true tripId s) = t.data := by
    simp [handleLoadTrip, hfind, liveDataOf]
  have hit' : ¬((handleLoadTrip true tripId s).itinerary = none ∨
      (handleLoadTrip true tripId s).itinerary = some []) := by
    have : (handleLoadTrip true tripId s).itinerary = t.data.itinerary := by
      simp [handleLoadTrip, hfind]
    rw [this]
    exact hit
  refine ⟨{ id := now, name := name,
            formState := formStateOf (handleLoadTrip true tripId s),
            data := liveDataOf (handleLoadTrip true tripId s) }, ?_, ?_⟩
  · simp [handleSaveTrip, hit', hname]
  · exact hlive

/-- Witness for C4 on the concrete stored trip: the appended snapshot's
data equals the restored one's. -/
theorem c4_restore_save_roundtrip_witness :
    stateWithTrip.savedTrips.find? (fun x => x.id == 7) = some sampleTrip ∧
    ∃ newTrip : SavedTrip,
      (handleSaveTrip (some "T") 9 (handleLoadTrip true 7 stateWithTrip)).1.savedTrips =
        (handleLoadTrip true 7 stateWithTrip).savedTrips ++ [newTrip] ∧
      newTrip.data = sampleTrip.data :=
  ⟨rfl,
   c4_restore_save_roundtrip stateWithTrip 7 sampleTrip (some "T") 9 "T"
     rfl (by decide) rfl (by decide)⟩

/-- C2 counterexample: the claimed rule is not exact for the full
pipeline. Exporting a document with a 40-high title, a first day
(header 10, one activity of height 186) and a second day (header 10),
the cursor before the second day's header sits at page 1, `cursorY =
265`, where `cursorY + 10 ≤ 282` — the claimed condition does not hold
— yet the day-header fit estimate (`yPos + 20 > 282`) starts page 2
and the header lands at `cursorY = 15` on the new page. -/
theorem c2_day_precheck_breaks_exactness :
    generatePdfLayout 40
        [{ header := 10, activities := [186] }, { header := 10, activities := [] }] =
      [{ page := 1, y := 15, height := 40 },
       { page := 1, y := 65, height := 10 },
       { page := 1, y := 77, height := 186 },
       { page := 2, y := 15, height := 10 }] ∧
    (layoutDays (afterTitle 40) [{ header := 10, activities := [186] }]).2 =
      { page := 1, yPos := 265 } ∧
    ¬ needsNewPage { page := 1, yPos := 265 } 10 := by
  refine ⟨?_, ?_, ?_⟩
  · norm_num [generatePdfLayout, layoutDays, addDayToPdf, dayPreBreak, afterTitle,
      paginateFrom, stateAfter, placeAt, stepState, needsNewPage, pdfInit,
      A4_HEIGHT, MARGIN]
  · norm_num [layoutDays, addDayToPdf, dayPreBreak, afterTitle, paginateFrom,
      stateAfter, placeAt, stepState, needsNewPage, pdfInit, A4_HEIGHT, MARGIN]
  · unfold needsNewPage A4_HEIGHT MARGIN
    norm_num

/-- C2 as amended: within each `addCanvasToPdf` call the height-fit
rule is exact — a block of display height h placed from cursor `st`
starts a new page (landing at the top margin of the next page) exactly
when `st.yPos + h > 282` and `st.yPos > 15` — and processing blocks of
heights [40, 40, 250] by consecutive `addCanvasToPdf` calls from page 1
with `cursorY = 15` keeps the first two on page 1 (at y = 15 and
y = 57) and starts page 2 at `cursorY = 15` for the third; but the full
pipeline has one additional page-break trigger outside this rule:
before each day header it starts a new page exactly when
`cursorY + 20 > 282`, a fixed fit estimate independent of the block's
actual height and without the `cursorY > 15` guard. -/
theorem c2_pagination_height_fit :
    (∀ (st : PdfState) (h : ℚ),
        ((placeAt st h).page = st.page + 1 ∧ (placeAt st h).y = MARGIN) ↔
          (282 < st.yPos + h ∧ 15 < st.yPos)) ∧
    paginate [40, 40, 250] =
      [{ page := 1, y := 15, height := 40 },
       { page := 1, y := 57, height := 40 },
       { page := 2, y := 15, height := 250 }] ∧
    (∀ st : PdfState,
        ((dayPreBreak st).page = st.page + 1 ∧ (dayPreBreak st).yPos = MARGIN) ↔
          282 < st.yPos + 20) := by
  refine ⟨?_, ?_, ?_⟩
  · intro st h
    have hiff : needsNewPage st h ↔ (282 < st.yPos + h ∧ 15 < st.yPos) := by
      unfold needsNewPage A4_HEIGHT MARGIN
      norm_num
    constructor
    · rintro ⟨hp, _⟩
      rw [← hiff]
      by_contra hc
      unfold placeAt at hp
      rw [if_neg hc] at hp
      simp at hp
    · intro hc
      unfold placeAt
      rw [if_pos (hiff.mpr hc)]
      exact ⟨rfl, rfl⟩
  · show paginateFrom pdfInit [40, 40, 250] = _
    norm_num [paginateFrom, placeAt, stepState, needsNewPage, pdfInit, A4_HEIGHT, MARGIN]
  · intro st
    have hiff : (A4_HEIGHT - MARGIN < st.yPos + 20) ↔ 282 < st.yPos + 20 := by
      unfold A4_HEIGHT MARGIN
      norm_num
    constructor
    · rintro ⟨hp, _⟩
      rw [← hiff]
      by_contra hc
      unfold dayPreBreak at hp
      rw [if_neg hc] at hp
      simp at hp
    · intro hc
      unfold dayPreBreak
      rw [if_pos (hiff.mpr hc)]
      exact ⟨rfl, rfl⟩

/-- C7: pagination never splits a block. Over any block sequence with
nonnegative display heights, each block yields exactly one placement,
and a block whose height exceeds the full content height (267) is still
placed, at full height, starting at `cursorY = MARGIN`, with no other
block sharing its page. -/
theorem c7_oversized_block_alone (pre post : List ℚ) (h : ℚ)
    (hpre : ∀ x ∈ pre, 0 ≤ x) (hpost : ∀ x ∈ post, 0 ≤ x) (h0 : 0 ≤ h)
    (hbig : A4_HEIGHT - 2 * MARGIN < h) :
    ∃ pl : Placement,
      paginate (pre ++ h :: post) =
        paginateFrom pdfInit pre ++
          pl :: paginateFrom (stepState (stateAfter pdfInit pre) h) post ∧
      pl.height = h ∧ pl.y = MARGIN ∧
      (paginateFrom pdfInit pre).length = pre.length ∧
      (paginateFrom (stepState (stateAfter pdfInit pre) h) post).length = post.length ∧
      (∀ q ∈ paginateFrom pdfInit pre, q.page ≠ pl.page) ∧
      (∀ q ∈ paginateFrom (stepState (stateAfter pdfInit pre) h) post, q.page ≠ pl.page) := by
  have hyInit : MARGIN ≤ pdfInit.yPos := le_refl _
  have hy1 : MARGIN ≤ (stateAfter pdfInit pre).yPos :=
    stateAfter_yPos_lb pdfInit pre hpre hyInit
  have hbig282 : A4_HEIGHT - MARGIN < (stateAfter pdfInit pre).yPos + h := by
    unfold A4_HEIGHT MARGIN at *
    linarith
  have hyeqOfNot : ¬ needsNewPage (stateAfter pdfInit pre) h →
      (stateAfter pdfInit pre).yPos = MARGIN := by
    intro hc
    rcases LE.le.lt_or_eq hy1 with hlt | heq
    · exact absurd ⟨hbig282, hlt⟩ hc
    · exact heq.symm
  refine ⟨placeAt (stateAfter pdfInit pre) h, ?_, placeAt_height _ h, ?_,
    paginateFrom_length _ pre, paginateFrom_length _ post, ?_, ?_⟩
  · show paginateFrom pdfInit (pre ++ h :: post) = _
    rw [paginateFrom_append]
    rfl
  · by_cases hc : needsNewPage (stateAfter pdfInit pre) h
    · unfold placeAt
      rw [if_pos hc]
    · unfold placeAt
      rw [if_neg hc]
      exact hyeqOfNot hc
  · intro q hq
    have hcl := paginateFrom_page_classify pdfInit pre hpre hyInit q hq
    by_cases hc : needsNewPage (stateAfter pdfInit pre) h
    · have hpl : (placeAt (stateAfter pdfInit pre) h).page =
          (stateAfter pdfInit pre).page + 1 := by
        unfold placeAt
        rw [if_pos hc]
      rcases hcl with hlt | ⟨heq, _⟩ <;> omega
    · have hpl : (placeAt (stateAfter pdfInit pre) h).page =
          (stateAfter pdfInit pre).page := by
        unfold placeAt
        rw [if_neg hc]
      rcases hcl with hlt | ⟨heq, hge⟩
      · omega
      · exfalso
        have := hyeqOfNot hc
        rw [this] at hge
        linarith
  · intro q hq
    have hstep2 : A4_HEIGHT - MARGIN < (stepState (stateAfter pdfInit pre) h).yPos := by
      unfold stepState
      split
      · show A4_HEIGHT - MARGIN < MARGIN + h + 2
        unfold A4_HEIGHT MARGIN at *
        linarith
      · show A4_HEIGHT - MARGIN < (stateAfter pdfInit pre).yPos + h + 2
        linarith
    have hgt := paginateFrom_after_overflow (stepState (stateAfter pdfInit pre) h)
      post hpost hstep2 q hq
    have hpl := placeAt_page_eq_stepState (stateAfter pdfInit pre) h
    omega

/-- Witness for C7: heights [40, 270, 40] — the 270 block lands alone
at the top of its page, and each block yields one placement. -/
theorem c7_oversized_block_alone_witness :
    (0 : ℚ) ≤ 270 ∧ A4_HEIGHT - 2 * MARGIN < (270 : ℚ) ∧
    (∃ pl : Placement,
      paginate ([40] ++ (270 : ℚ) :: [40]) =
        paginateFrom pdfInit [40] ++
          pl :: paginateFrom (stepState (stateAfter pdfInit [40]) 270) [40] ∧
      pl.height = 270 ∧ pl.y = MARGIN ∧
      (paginateFrom pdfInit [40]).length = [(40 : ℚ)].length ∧
      (paginateFrom (stepState (stateAfter pdfInit [40]) 270) [40]).length =
        [(40 : ℚ)].length ∧
      (∀ q ∈ paginateFrom pdfInit [40], q.page ≠ pl.page) ∧
      (∀ q ∈ paginateFrom (stepState (stateAfter pdfInit [40]) 270) [40],
        q.page ≠ pl.page)) :=
  ⟨by norm_num, by unfold A4_HEIGHT MARGIN; norm_num,
   c7_oversized_block_alone [40] [40] 270
     (by intro x hx; simp at hx; simp [hx]) (by intro x hx; simp at hx; simp [hx])
     (by norm_num) (by unfold A4_HEIGHT MARGIN; norm_num)⟩

end Planner
